import Mathlib

/-
Verification of the connection-lifecycle core of fluent-forward-go
(fluent/client/ws_client.go): the AuthInfo credential holder, the
pluggable WSConnectionFactory, the WSSession value and the WSClient
orchestrator with its Connect / Disconnect / Reconnect / SendMessage /
Listen operations.

The embedding is a shallow one.  Go errors are modelled as strings,
Go nil pointers and nil interfaces as `Option`, and a Go runtime panic
as the `Outcome.panic` constructor.  External collaborators (the
websocket dial boundary and the connection-wrapping step) are modelled
as an explicit environment of functions, and each operation also
returns the list of observable effects it performed, so that claims
about "no network operation is attempted" are statable.
-/

namespace FFC

/-- Go errors, modelled by their message. -/
abbrev Error := String

/-- The error built by `errors.New("No active session")` in ws_client.go. -/
def noActiveSessionError : Error := "No active session"

/-- The `AuthorizationHeader` constant of ws_client.go. -/
def AuthorizationHeader : String := "Authorization"

/-- The result of running a piece of Go code: either a normal value or a
runtime panic carrying its message. -/
inductive Outcome (α : Type) where
  | panic (msg : String)
  | ok (a : α)
deriving Repr, DecidableEq

/-- Go `http.Header` is `map[string][]string`; a declared-but-uninitialised
header (`var header http.Header`) is the nil map, modelled as `none`. -/
abbrev Header := Option (List (String × String))

/-- Go `http.Header.Add`: appends a key/value pair.  Writing to a nil map
panics at runtime, exactly as in Go. -/
def Header.add : Header → String → String → Outcome Header
  | none, _, _ => .panic "assignment to entry in nil map"
  | some h, k, v => .ok (some (h ++ [(k, v)]))

/-- Modelled from the spec: `ServerAddress` is defined outside the provided
source file; per the spec it is "an immutable value identifying the remote
endpoint (host, scheme, path) resolvable to a connection target string". -/
structure ServerAddress where
  scheme : String
  host : String
  path : String
deriving Repr, DecidableEq

/-- Modelled from the spec: the `String()` rendering of a `ServerAddress`
to a connection target string. -/
def ServerAddress.string (sa : ServerAddress) : String :=
  sa.scheme ++ "://" ++ sa.host ++ sa.path

/-- `IAMAuthInfo` of ws_client.go: the credential field.  The `sync.RWMutex`
guarding it is a concurrency device with no sequential content and is not
part of this sequential embedding. -/
structure IAMAuthInfo where
  token : String
deriving Repr, DecidableEq

/-- `IAMAuthInfo.IAMToken`: returns the current token value. -/
def IAMAuthInfo.iamToken (ai : IAMAuthInfo) : String := ai.token

/-- `IAMAuthInfo.SetIAMToken`: replaces the token value. -/
def IAMAuthInfo.setIAMToken (_ai : IAMAuthInfo) (token : String) : IAMAuthInfo :=
  { token := token }

/-- `NewIAMAuthInfo` of ws_client.go. -/
def NewIAMAuthInfo (token : String) : IAMAuthInfo := { token := token }

/-- A raw low-level connection (`ext.Conn`), opaque to the core; the id
distinguishes particular connections handed out by the boundary. -/
structure Conn where
  id : Nat
deriving Repr, DecidableEq

/-- Modelled from the spec: the protocol-capable `ws.Connection` obtained by
the wrapping step is an external collaborator with `write`, `readLoop`
(`Listen`) and `close` operations; its behaviour is scripted by the results
those operations will report. -/
structure Connection where
  id : Nat
  closeResult : Option Error
  writeResult : Option Error
  listenResult : Option Error
deriving Repr, DecidableEq

/-- `ws.ConnectionOptions`, opaque to this core. -/
structure ConnectionOptions where
  id : Nat
deriving Repr, DecidableEq

/-- Observable effects of the core on its collaborators. -/
inductive Effect where
  | dial (addr : String) (header : Header)
  | factoryNew
  | wrap (connId : Nat) (optsId : Nat)
  | close (connId : Nat)
  | encode (msgId : Nat)
  | write (connId : Nat)
  | listen (connId : Nat)
deriving Repr, DecidableEq

/-- Modelled from the spec: the behaviour of the two external boundaries,
the websocket dial (`websocket.Dialer.Dial`) and the wrapping step
(`ws.NewConnection`, which is code of this repository not under src/);
per the spec each returns an open connection or an error. -/
structure Env where
  dial : String → Header → Except Error Conn
  wrap : Conn → ConnectionOptions → Except Error Connection

instance {ε α : Type} [DecidableEq ε] [DecidableEq α] : DecidableEq (Except ε α) :=
  fun a b =>
    match a, b with
    | .error e, .error f =>
        if h : e = f then .isTrue (congrArg Except.error h)
        else .isFalse (fun hc => h (Except.error.inj hc))
    | .ok x, .ok y =>
        if h : x = y then .isTrue (congrArg Except.ok h)
        else .isFalse (fun hc => h (Except.ok.inj hc))
    | .error _, .ok _ => .isFalse (fun hc => Except.noConfusion hc)
    | .ok _, .error _ => .isFalse (fun hc => Except.noConfusion hc)

/-- `WSConnectionFactory` values: the default variant of ws_client.go, or
a caller-supplied substitute whose `New` is scripted by its result. -/
inductive WSConnectionFactory where
  | defaultWS (serverAddress : ServerAddress) (authInfo : Option IAMAuthInfo)
  | custom (result : Except Error Conn)
deriving Repr, DecidableEq

/-- `DefaultWSConnectionFactory.New` of ws_client.go:
`var header http.Header` declares the nil map; if `AuthInfo` is non-nil and
the token is non-empty the code calls `header.Add` on that nil map; then it
dials the server address with the header. -/
def DefaultWSConnectionFactory.new (env : Env) (serverAddress : ServerAddress)
    (authInfo : Option IAMAuthInfo) : Outcome (Except Error Conn) × List Effect :=
  let header : Header := none
  let afterGuard : Outcome Header :=
    match authInfo with
    | some ai =>
        if 0 < ai.iamToken.length then
          Header.add header AuthorizationHeader ai.iamToken
        else .ok header
    | none => .ok header
  match afterGuard with
  | .panic m => (.panic m, [])
  | .ok h => (.ok (env.dial serverAddress.string h), [.dial serverAddress.string h])

/-- Dispatch of the `WSConnectionFactory` interface: the default variant
runs `DefaultWSConnectionFactory.New`; a caller-supplied variant reports
its scripted result. -/
def WSConnectionFactory.new (env : Env) :
    WSConnectionFactory → Outcome (Except Error Conn) × List Effect
  | .defaultWS sa ai => DefaultWSConnectionFactory.new env sa ai
  | .custom r => (.ok r, [.factoryNew])

/-- `WSSession` of ws_client.go: an address paired with a (possibly nil)
wrapped connection. -/
structure WSSession where
  serverAddress : ServerAddress
  connection : Option Connection
deriving Repr, DecidableEq

/-- `WSClient` of ws_client.go. -/
structure WSClient where
  connectionFactory : Option WSConnectionFactory
  serverAddress : ServerAddress
  authInfo : Option IAMAuthInfo
  connectionOptions : ConnectionOptions
  session : Option WSSession
deriving Repr, DecidableEq

/-- The result of one client operation: the returned outcome, the client
state afterwards, and the effects performed. -/
structure OpResult where
  outcome : Outcome (Option Error)
  client : WSClient
  effects : List Effect
deriving Repr, DecidableEq

/-- The factory `Connect` will use: the caller-supplied one when the field
is set, otherwise the default variant bound to the client's own address and
credential reference (lines 94-99 of ws_client.go). -/
def WSClient.resolveFactory (c : WSClient) : WSConnectionFactory :=
  match c.connectionFactory with
  | some f => f
  | none => .defaultWS c.serverAddress c.authInfo

/-- The assignment `c.ConnectionFactory = ...` performed by `Connect` when
the field is nil; when it is already set this is the identity. -/
def WSClient.installFactory (c : WSClient) : WSClient :=
  { c with connectionFactory := some c.resolveFactory }

/-- `WSClient.Connect` of ws_client.go: ensure a factory exists, invoke its
`New`, wrap the raw connection via `ws.NewConnection`, and store the new
session; any error is returned unchanged and stops the sequence. -/
def WSClient.connect (env : Env) (c : WSClient) : OpResult :=
  match WSConnectionFactory.new env c.resolveFactory with
  | (.panic m, effs) => ⟨.panic m, c.installFactory, effs⟩
  | (.ok (.error e), effs) => ⟨.ok (some e), c.installFactory, effs⟩
  | (.ok (.ok conn), effs) =>
      match env.wrap conn c.connectionOptions with
      | .error e =>
          ⟨.ok (some e), c.installFactory,
            effs ++ [.wrap conn.id c.connectionOptions.id]⟩
      | .ok connection =>
          ⟨.ok none,
            { c.installFactory with
                session := some ⟨c.serverAddress, some connection⟩ },
            effs ++ [.wrap conn.id c.connectionOptions.id]⟩

/-- `WSClient.Disconnect` of ws_client.go: close the session's connection
when a session exists (a method call on a nil connection interface panics,
as in Go), then clear the session and return the close error. -/
def WSClient.disconnect (c : WSClient) : OpResult :=
  match c.session with
  | none => ⟨.ok none, { c with session := none }, []⟩
  | some s =>
      match s.connection with
      | none => ⟨.panic "nil pointer dereference", c, []⟩
      | some conn =>
          ⟨.ok conn.closeResult, { c with session := none }, [.close conn.id]⟩

/-- `WSClient.Reconnect` of ws_client.go:
`if err = c.Disconnect(); err == nil { err = c.Connect() }`. -/
def WSClient.reconnect (env : Env) (c : WSClient) : OpResult :=
  match c.disconnect with
  | ⟨.panic m, c1, effs⟩ => ⟨.panic m, c1, effs⟩
  | ⟨.ok (some e), c1, effs⟩ => ⟨.ok (some e), c1, effs⟩
  | ⟨.ok none, c1, effs⟩ =>
      let r := WSClient.connect env c1
      ⟨r.outcome, r.client, effs ++ r.effects⟩

/-- A message handed to `SendMessage` (`msgp.Encodable`): its id and the
error, if any, its own `EncodeMsg` step will report. -/
structure Message where
  id : Nat
  encodeError : Option Error
deriving Repr, DecidableEq

/-- `msgp.Encode(w, e)`: encode the message and flush the bytes to the
writer; when the encode step itself errors that error is returned without
a write, and flushing to a nil writer interface panics, as in Go. -/
def msgpEncode (w : Option Connection) (e : Message) :
    Outcome (Option Error) × List Effect :=
  match e.encodeError with
  | some err => (.ok (some err), [.encode e.id])
  | none =>
      match w with
      | none => (.panic "nil pointer dereference", [.encode e.id])
      | some conn => (.ok conn.writeResult, [.encode e.id, .write conn.id])

/-- `WSClient.SendMessage` of ws_client.go: reject with the no-active-session
error when `c.Session == nil`, otherwise `msgp.Encode` to the session's
connection.  Only the session pointer is checked, not its connection. -/
def WSClient.sendMessage (c : WSClient) (e : Message) : OpResult :=
  match c.session with
  | none => ⟨.ok (some noActiveSessionError), c, []⟩
  | some s =>
      let r := msgpEncode s.connection e
      ⟨r.1, c, r.2⟩

/-- `WSClient.Listen` of ws_client.go: reject with the no-active-session
error when `c.Session == nil || c.Session.Connection == nil`, otherwise run
the connection's blocking listen loop and return its outcome. -/
def WSClient.listen (c : WSClient) : OpResult :=
  match c.session with
  | none => ⟨.ok (some noActiveSessionError), c, []⟩
  | some s =>
      match s.connection with
      | none => ⟨.ok (some noActiveSessionError), c, []⟩
      | some conn => ⟨.ok conn.listenResult, c, [.listen conn.id]⟩

/-- The session precondition `SendMessage` tests: `c.Session != nil`. -/
def WSClient.sendGuardPasses (c : WSClient) : Bool :=
  c.session.isSome

/-- The session precondition `Listen` tests:
`c.Session != nil && c.Session.Connection != nil`. -/
def WSClient.listenGuardPasses (c : WSClient) : Bool :=
  match c.session with
  | none => false
  | some s => s.connection.isSome

/-- The spec's Session invariant (data model, section 3): an existing
Session's connection is present. -/
def WSClient.sessionWF (c : WSClient) : Bool :=
  match c.session with
  | none => true
  | some s => s.connection.isSome

/-- Modelled from the spec: Reconnect is "equivalent to calling Disconnect;
if and only if Disconnect succeeded, call Connect; if Disconnect fails,
Reconnect fails with the same error and does not attempt Connect". -/
def WSClient.reconnectSpec (env : Env) (c : WSClient) : OpResult :=
  let d := WSClient.disconnect c
  match d.outcome with
  | .ok none =>
      let r := WSClient.connect env d.client
      ⟨r.outcome, r.client, d.effects ++ r.effects⟩
  | _ => d

/-- Concrete fixtures used by the witnesses. -/
def saW : ServerAddress := ⟨"ws", "localhost", "/fluent"⟩

def optsW : ConnectionOptions := ⟨0⟩

def connW : Conn := ⟨1⟩

def connectionW : Connection := ⟨1, none, none, none⟩

def connectionCloseFailW : Connection := ⟨2, some "closefail", none, none⟩

def envOkW : Env := ⟨fun _ _ => .ok connW, fun _ _ => .ok connectionW⟩

def envDialFailW : Env := ⟨fun _ _ => .error "dialfail", fun _ _ => .ok connectionW⟩

def clientDiscW : WSClient := ⟨none, saW, none, optsW, none⟩

def clientCustomW : WSClient := ⟨some (.custom (.ok connW)), saW, none, optsW, none⟩

def sessionLiveW : WSSession := ⟨saW, some connectionW⟩

def sessionCloseFailW : WSSession := ⟨saW, some connectionCloseFailW⟩

def sessionNilConnW : WSSession := ⟨saW, none⟩

def clientConnectedFailingFactoryW : WSClient :=
  ⟨some (.custom (.error "factoryfail")), saW, none, optsW, some sessionLiveW⟩

def clientDiscFailingFactoryW : WSClient :=
  ⟨some (.custom (.error "factoryfail")), saW, none, optsW, none⟩

def clientCloseFailW : WSClient :=
  ⟨some (.custom (.ok connW)), saW, none, optsW, some sessionCloseFailW⟩

def clientNilConnW : WSClient := ⟨none, saW, none, optsW, some sessionNilConnW⟩

/-- Replacing an absent session by `none` is the identity on the client. -/
theorem WSClient.session_eta (c : WSClient) (h : c.session = none) :
    { c with session := none } = c := by
  cases c
  simp_all

theorem resolveFactory_of_some (c : WSClient) (f : WSConnectionFactory)
    (h : c.connectionFactory = some f) : c.resolveFactory = f := by
  simp [WSClient.resolveFactory, h]

theorem resolveFactory_of_none (c : WSClient) (h : c.connectionFactory = none) :
    c.resolveFactory = .defaultWS c.serverAddress c.authInfo := by
  simp [WSClient.resolveFactory, h]

/-- After any `Connect`, the factory field holds the factory it resolved. -/
theorem connect_client_factory (env : Env) (c : WSClient) :
    (WSClient.connect env c).client.connectionFactory = some c.resolveFactory := by
  unfold WSClient.connect
  split
  · simp [WSClient.installFactory]
  · simp [WSClient.installFactory]
  · split <;> simp [WSClient.installFactory]

/-- `Disconnect` never touches the factory field. -/
theorem disconnect_client_factory (c : WSClient) :
    (WSClient.disconnect c).client.connectionFactory = c.connectionFactory := by
  unfold WSClient.disconnect
  split
  · rfl
  · split <;> rfl

/-- Whenever `Disconnect` returns (instead of panicking), the session has
been cleared. -/
theorem disconnect_session_of_ok (c : WSClient) (r : Option Error)
    (h : (WSClient.disconnect c).outcome = .ok r) :
    (WSClient.disconnect c).client.session = none := by
  rcases hs : c.session with _ | s
  · simp [WSClient.disconnect, hs]
  · rcases hc : s.connection with _ | conn
    · simp [WSClient.disconnect, hs, hc] at h
    · simp [WSClient.disconnect, hs, hc]

/-- `Reconnect` keeps an already-set factory field set to the same factory. -/
theorem reconnect_client_factory_of_some (env : Env) (c : WSClient)
    (f : WSConnectionFactory) (h : c.connectionFactory = some f) :
    (WSClient.reconnect env c).client.connectionFactory = some f := by
  have hd := disconnect_client_factory c
  unfold WSClient.reconnect
  split
  next m c1 effs heq =>
    rw [heq] at hd
    simp at hd ⊢
    rw [hd]
    exact h
  next e c1 effs heq =>
    rw [heq] at hd
    simp at hd ⊢
    rw [hd]
    exact h
  next c1 effs heq =>
    rw [heq] at hd
    have h1 : c1.connectionFactory = some f := by rw [hd]; exact h
    simp [connect_client_factory, resolveFactory_of_some c1 f h1]

/-- The spec's Session invariant, unpacked: a present session has a present
connection. -/
theorem sessionWF_spec (c : WSClient) (hwf : c.sessionWF = true)
    (s : WSSession) (hs : c.session = some s) :
    ∃ conn, s.connection = some conn := by
  unfold WSClient.sessionWF at hwf
  rw [hs] at hwf
  simp at hwf
  exact Option.isSome_iff_exists.mp hwf

/-- C1: the claim says the default factory's `New` attaches a present,
non-empty credential as the `Authorization` header and then dials.  The code
instead declares `var header http.Header` (the nil map) and `header.Add`
then panics with an assignment to an entry in a nil map, before any dial is
attempted — contradicting the code's own doc comment on `Connect` and the
spec.  This theorem evaluates the code at every such failing input. -/
theorem c1_defaultNew_panics_on_nonempty_token (env : Env) (sa : ServerAddress)
    (ai : IAMAuthInfo) (h : 0 < ai.iamToken.length) :
    DefaultWSConnectionFactory.new env sa (some ai) =
      (.panic "assignment to entry in nil map", []) := by
  simp [DefaultWSConnectionFactory.new, Header.add, h]

/-- C1 witness: the panic at the concrete credential "secret-token". -/
theorem c1_defaultNew_panics_witness :
    0 < (NewIAMAuthInfo "secret-token").iamToken.length ∧
    DefaultWSConnectionFactory.new envOkW saW (some (NewIAMAuthInfo "secret-token")) =
      (.panic "assignment to entry in nil map", []) :=
  ⟨by decide,
    c1_defaultNew_panics_on_nonempty_token envOkW saW (NewIAMAuthInfo "secret-token")
      (by decide)⟩

/-- C5: on a client with no current session, `SendMessage` and `Listen` both
return the core's own no-active-session error, perform no effect on any
connection, and leave the client state unchanged. -/
theorem c5_noSession_rejects (c : WSClient) (e : Message) (h : c.session = none) :
    WSClient.sendMessage c e = ⟨.ok (some noActiveSessionError), c, []⟩ ∧
    WSClient.listen c = ⟨.ok (some noActiveSessionError), c, []⟩ := by
  constructor
  · simp [WSClient.sendMessage, h]
  · simp [WSClient.listen, h]

/-- C5 witness: the rejection on a concrete disconnected client. -/
theorem c5_noSession_rejects_witness :
    WSClient.sendMessage clientDiscW ⟨0, none⟩ =
      ⟨.ok (some noActiveSessionError), clientDiscW, []⟩ ∧
    WSClient.listen clientDiscW = ⟨.ok (some noActiveSessionError), clientDiscW, []⟩ :=
  c5_noSession_rejects clientDiscW ⟨0, none⟩ rfl

/-- C9: the no-active-session guard of `SendMessage` tests only that the
session is present.  On a client whose session exists with a nil connection,
`SendMessage` passes its guard and attempts encoding — panicking when the
encoded bytes are flushed to the nil connection — while `Listen` returns the
no-active-session error in exactly that state. -/
theorem c9_guard_asymmetry (c : WSClient) (s : WSSession) (e : Message)
    (hs : c.session = some s) (hc : s.connection = none)
    (he : e.encodeError = none) :
    WSClient.sendMessage c e =
      ⟨.panic "nil pointer dereference", c, [.encode e.id]⟩ ∧
    WSClient.listen c = ⟨.ok (some noActiveSessionError), c, []⟩ := by
  constructor
  · simp [WSClient.sendMessage, hs, msgpEncode, he, hc]
  · simp [WSClient.listen, hs, hc]

/-- C9 witness: the asymmetry at a concrete session with a nil connection. -/
theorem c9_guard_asymmetry_witness :
    WSClient.sendMessage clientNilConnW ⟨7, none⟩ =
      ⟨.panic "nil pointer dereference", clientNilConnW, [.encode 7]⟩ ∧
    WSClient.listen clientNilConnW =
      ⟨.ok (some noActiveSessionError), clientNilConnW, []⟩ :=
  c9_guard_asymmetry clientNilConnW sessionNilConnW ⟨7, none⟩ rfl rfl rfl

/-- C3: `Disconnect` always leaves the client with no session: with no
session it is a no-op success; with a session it closes the session's
connection, clears the session whether or not close errored, and returns the
close error; hence a second consecutive `Disconnect` is a no-op success.
Stated under the spec's Session invariant that an existing session's
connection is present (a method call on a nil connection would panic). -/
theorem c3_disconnect_clears (c : WSClient) (hwf : c.sessionWF = true) :
    (WSClient.disconnect c).client.session = none ∧
    (c.session = none → WSClient.disconnect c = ⟨.ok none, c, []⟩) ∧
    (∀ s conn, c.session = some s → s.connection = some conn →
      WSClient.disconnect c =
        ⟨.ok conn.closeResult, { c with session := none }, [.close conn.id]⟩) ∧
    WSClient.disconnect (WSClient.disconnect c).client =
      ⟨.ok none, (WSClient.disconnect c).client, []⟩ := by
  rcases hs : c.session with _ | s
  · refine ⟨?_, ?_, ?_, ?_⟩
    · simp [WSClient.disconnect, hs]
    · intro _
      simp [WSClient.disconnect, hs, WSClient.session_eta c hs]
    · intro s conn hcontra
      exact Option.noConfusion hcontra
    · simp [WSClient.disconnect, hs]
  · rcases hc : s.connection with _ | conn
    · rcases sessionWF_spec c hwf s hs with ⟨conn, hconn⟩
      rw [hc] at hconn
      exact Option.noConfusion hconn
    · refine ⟨?_, ?_, ?_, ?_⟩
      · simp [WSClient.disconnect, hs, hc]
      · intro hcontra
        exact Option.noConfusion hcontra
      · intro s2 conn2 hs2 hc2
        cases hs2
        rw [hc] at hc2
        cases hc2
        simp [WSClient.disconnect, hs, hc]
      · simp [WSClient.disconnect, hs, hc]

/-- C3 witness: double Disconnect on a concrete connected client whose
connection's close reports an error. -/
theorem c3_disconnect_clears_witness :
    clientCloseFailW.sessionWF = true ∧
    (WSClient.disconnect clientCloseFailW).client.session = none ∧
    WSClient.disconnect (WSClient.disconnect clientCloseFailW).client =
      ⟨.ok none, (WSClient.disconnect clientCloseFailW).client, []⟩ :=
  ⟨rfl, (c3_disconnect_clears clientCloseFailW rfl).1,
    (c3_disconnect_clears clientCloseFailW rfl).2.2.2⟩

/-- C6: `Connect` uses the caller-supplied factory whenever the field is
set and never replaces it; only when the field is unset does it resolve and
install the default variant, bound to the client's own server address and
its AuthInfo credential reference. -/
theorem c6_factory_resolution (env : Env) (c : WSClient) :
    (∀ f, c.connectionFactory = some f →
      c.resolveFactory = f ∧
      (WSClient.connect env c).client.connectionFactory = some f) ∧
    (c.connectionFactory = none →
      c.resolveFactory = .defaultWS c.serverAddress c.authInfo ∧
      (WSClient.connect env c).client.connectionFactory =
        some (.defaultWS c.serverAddress c.authInfo)) := by
  constructor
  · intro f h
    have h1 := resolveFactory_of_some c f h
    exact ⟨h1, by rw [connect_client_factory, h1]⟩
  · intro h
    have h1 := resolveFactory_of_none c h
    exact ⟨h1, by rw [connect_client_factory, h1]⟩

/-- C6 witness: a Connect on a concrete client with no factory set installs
the default variant bound to the client's address and credential. -/
theorem c6_factory_resolution_witness :
    clientDiscW.resolveFactory = .defaultWS saW none ∧
    (WSClient.connect envOkW clientDiscW).client.connectionFactory =
      some (.defaultWS saW none) :=
  (c6_factory_resolution envOkW clientDiscW).2 rfl

/-- C7: when the factory's `New` and the wrapping step both succeed,
`Connect` returns success and stores exactly one new session pairing the
client's server address with the wrapped connection, and both
`SendMessage`'s and `Listen`'s session preconditions hold immediately
afterwards. -/
theorem c7_connect_success (env : Env) (c : WSClient) (conn : Conn)
    (connection : Connection) (effs : List Effect)
    (hn : WSConnectionFactory.new env c.resolveFactory = (.ok (.ok conn), effs))
    (hw : env.wrap conn c.connectionOptions = .ok connection) :
    WSClient.connect env c =
      ⟨.ok none,
        { c.installFactory with
            session := some ⟨c.serverAddress, some connection⟩ },
        effs ++ [.wrap conn.id c.connectionOptions.id]⟩ ∧
    (WSClient.connect env c).client.session =
      some ⟨c.serverAddress, some connection⟩ ∧
    (WSClient.connect env c).client.sendGuardPasses = true ∧
    (WSClient.connect env c).client.listenGuardPasses = true := by
  have h1 : WSClient.connect env c =
      ⟨.ok none,
        { c.installFactory with
            session := some ⟨c.serverAddress, some connection⟩ },
        effs ++ [.wrap conn.id c.connectionOptions.id]⟩ := by
    unfold WSClient.connect
    rw [hn]
    simp [hw]
  refine ⟨h1, ?_, ?_, ?_⟩ <;>
    rw [h1] <;>
    simp [WSClient.sendGuardPasses, WSClient.listenGuardPasses]

/-- C7 witness: a successful Connect through a concrete caller-supplied
factory makes SendMessage and Listen usable immediately. -/
theorem c7_connect_success_witness :
    WSClient.connect envOkW clientCustomW =
      ⟨.ok none,
        { clientCustomW.installFactory with
            session := some ⟨clientCustomW.serverAddress, some connectionW⟩ },
        [Effect.factoryNew] ++ [.wrap connW.id clientCustomW.connectionOptions.id]⟩ ∧
    (WSClient.connect envOkW clientCustomW).client.session =
      some ⟨clientCustomW.serverAddress, some connectionW⟩ ∧
    (WSClient.connect envOkW clientCustomW).client.sendGuardPasses = true ∧
    (WSClient.connect envOkW clientCustomW).client.listenGuardPasses = true :=
  c7_connect_success envOkW clientCustomW connW connectionW [Effect.factoryNew] rfl rfl

/-- C2 counterexample: `Connect` on an already-connected client whose
factory fails returns the factory error yet leaves the old session in
place, refuting the claim's "in every starting state ... the client holds
no Session". -/
theorem c2_counterexample :
    (WSClient.connect envOkW clientConnectedFailingFactoryW).outcome =
      .ok (some "factoryfail") ∧
    (WSClient.connect envOkW clientConnectedFailingFactoryW).client.session =
      some sessionLiveW ∧
    (WSClient.connect envOkW clientConnectedFailingFactoryW).client.session ≠
      none :=
  ⟨rfl, rfl, fun h => Option.noConfusion h⟩

/-- C2 (amended): for every client whose current session is absent, if
`Connect` returns an error then afterwards the client still holds no
session, and the returned error is exactly the factory's error or the
wrapping step's error, unchanged. -/
theorem c2_amended_connect_failure (env : Env) (c : WSClient) (e : Error)
    (hs : c.session = none)
    (hf : (WSClient.connect env c).outcome = .ok (some e)) :
    (WSClient.connect env c).client.session = none ∧
    ((WSConnectionFactory.new env c.resolveFactory).1 = .ok (.error e) ∨
      ∃ conn, (WSConnectionFactory.new env c.resolveFactory).1 = .ok (.ok conn) ∧
        env.wrap conn c.connectionOptions = .error e) := by
  rcases hn : WSConnectionFactory.new env c.resolveFactory with ⟨o, effs⟩
  rcases o with m | r
  · unfold WSClient.connect at hf
    rw [hn] at hf
    simp at hf
  · rcases r with e2 | conn
    · unfold WSClient.connect at hf
      rw [hn] at hf
      simp at hf
      constructor
      · unfold WSClient.connect
        rw [hn]
        simp [WSClient.installFactory, hs]
      · left
        simp [hn, hf]
    · rcases hw : env.wrap conn c.connectionOptions with e2 | connection
      · unfold WSClient.connect at hf
        rw [hn] at hf
        simp [hw] at hf
        constructor
        · unfold WSClient.connect
          rw [hn]
          simp [hw, WSClient.installFactory, hs]
        · right
          exact ⟨conn, by simp [hn], by rw [hw, hf]⟩
      · unfold WSClient.connect at hf
        rw [hn] at hf
        simp [hw] at hf

/-- C2 witness: the amended statement at a concrete disconnected client
whose factory reports the error "factoryfail". -/
theorem c2_amended_connect_failure_witness :
    (WSClient.connect envOkW clientDiscFailingFactoryW).client.session = none ∧
    ((WSConnectionFactory.new envOkW clientDiscFailingFactoryW.resolveFactory).1 =
        .ok (.error "factoryfail") ∨
      ∃ conn,
        (WSConnectionFactory.new envOkW clientDiscFailingFactoryW.resolveFactory).1 =
          .ok (.ok conn) ∧
        envOkW.wrap conn clientDiscFailingFactoryW.connectionOptions =
          .error "factoryfail") :=
  c2_amended_connect_failure envOkW clientDiscFailingFactoryW "factoryfail" rfl rfl

/-- C4: `Reconnect` is exactly the spec's Disconnect-then-Connect-iff-
Disconnect-succeeded composition: when Disconnect errors, Reconnect returns
that same error with Disconnect's state and effects only (no Connect
attempt) and no session remains; when Disconnect succeeds, Reconnect's
outcome, state and appended effects are Connect's. -/
theorem c4_reconnect_composition (env : Env) (c : WSClient) :
    WSClient.reconnect env c = WSClient.reconnectSpec env c ∧
    (∀ e, (WSClient.disconnect c).outcome = .ok (some e) →
      WSClient.reconnect env c =
        ⟨.ok (some e), (WSClient.disconnect c).client,
          (WSClient.disconnect c).effects⟩ ∧
      (WSClient.reconnect env c).client.session = none) ∧
    ((WSClient.disconnect c).outcome = .ok none →
      (WSClient.reconnect env c).outcome =
        (WSClient.connect env (WSClient.disconnect c).client).outcome ∧
      (WSClient.reconnect env c).client =
        (WSClient.connect env (WSClient.disconnect c).client).client ∧
      (WSClient.reconnect env c).effects =
        (WSClient.disconnect c).effects ++
          (WSClient.connect env (WSClient.disconnect c).client).effects) := by
  rcases hd : WSClient.disconnect c with ⟨o, c1, effs⟩
  rcases o with m | r
  · refine ⟨?_, ?_, ?_⟩
    · simp [WSClient.reconnect, WSClient.reconnectSpec, hd]
    · intro e he
      simp at he
    · intro he
      simp at he
  · rcases r with _ | e0
    · refine ⟨?_, ?_, ?_⟩
      · simp [WSClient.reconnect, WSClient.reconnectSpec, hd]
      · intro e he
        simp at he
      · intro _
        refine ⟨?_, ?_, ?_⟩ <;> simp [WSClient.reconnect, hd]
    · refine ⟨?_, ?_, ?_⟩
      · simp [WSClient.reconnect, WSClient.reconnectSpec, hd]
      · intro e he
        simp at he
        have hno := disconnect_session_of_ok c (some e0) (by rw [hd])
        rw [hd] at hno
        simp at hno
        subst he
        constructor
        · simp [WSClient.reconnect, hd]
        · simp [WSClient.reconnect, hd, hno]
      · intro he
        simp at he

/-- C4 witness: Reconnect on a concrete client whose close fails returns
the close error, performs no Connect, and leaves no session. -/
theorem c4_reconnect_composition_witness :
    (WSClient.disconnect clientCloseFailW).outcome = .ok (some "closefail") ∧
    WSClient.reconnect envOkW clientCloseFailW =
      ⟨.ok (some "closefail"), (WSClient.disconnect clientCloseFailW).client,
        (WSClient.disconnect clientCloseFailW).effects⟩ ∧
    (WSClient.reconnect envOkW clientCloseFailW).client.session = none :=
  ⟨rfl,
    ((c4_reconnect_composition envOkW clientCloseFailW).2.1 "closefail" rfl).1,
    ((c4_reconnect_composition envOkW clientCloseFailW).2.1 "closefail" rfl).2⟩

/-- C10: once a Connect has installed the default factory on a client whose
factory field was unset, that field holds that same default factory even
when the Connect attempt fails, later Connect and Reconnect calls keep it,
and the factory they resolve is that installed one — no new factory is
constructed. -/
theorem c10_default_factory_persists (env env2 : Env) (c : WSClient) (e : Error)
    (h0 : c.connectionFactory = none)
    (_hf : (WSClient.connect env c).outcome = .ok (some e)) :
    (WSClient.connect env c).client.connectionFactory =
      some (.defaultWS c.serverAddress c.authInfo) ∧
    (WSClient.connect env c).client.resolveFactory =
      .defaultWS c.serverAddress c.authInfo ∧
    (WSClient.connect env2 (WSClient.connect env c).client).client.connectionFactory =
      some (.defaultWS c.serverAddress c.authInfo) ∧
    (WSClient.reconnect env2 (WSClient.connect env c).client).client.connectionFactory =
      some (.defaultWS c.serverAddress c.authInfo) := by
  have h1 : (WSClient.connect env c).client.connectionFactory =
      some (.defaultWS c.serverAddress c.authInfo) := by
    rw [connect_client_factory, resolveFactory_of_none c h0]
  have h2 := resolveFactory_of_some _ _ h1
  refine ⟨h1, h2, ?_, ?_⟩
  · rw [connect_client_factory, h2]
  · exact reconnect_client_factory_of_some env2 _ _ h1

/-- C10 witness: a failed dial through the lazily installed default factory
leaves the field set, and the following Connect and Reconnect reuse it. -/
theorem c10_default_factory_persists_witness :
    (WSClient.connect envDialFailW clientDiscW).client.connectionFactory =
      some (.defaultWS saW none) ∧
    (WSClient.connect envDialFailW clientDiscW).client.resolveFactory =
      .defaultWS saW none ∧
    (WSClient.connect envOkW
        (WSClient.connect envDialFailW clientDiscW).client).client.connectionFactory =
      some (.defaultWS saW none) ∧
    (WSClient.reconnect envOkW
        (WSClient.connect envDialFailW clientDiscW).client).client.connectionFactory =
      some (.defaultWS saW none) :=
  c10_default_factory_persists envDialFailW envOkW clientDiscW "dialfail" rfl rfl

end FFC
